import Mathlib

/-
Verification of the Prozen Obsidian plugin (src/main.ts) against its
natural-language specification.

The plugin is a single class with a persisted settings record, one boolean
of internal state (isInZenMode), a toggle operation (fullscreenMode), the
style application/removal helpers (addStyles / removeStyles) and an
auto-zen event handler (handleEditorChange).

Shallow embedding conventions:
* JS numbers that the plugin only stores and stringifies (never computes
  with) are modelled as rationals.
* DOM class lists are lists of class-name strings without duplicates;
  classList.add appends when missing, classList.remove filters out.
* The host state the code reads (document.fullscreenElement, the active
  leaf, the active editor, the vault's readableLineLength config) is part
  of the system state, as is the single active leaf's element tree.
* A thrown JS TypeError is modelled by a Bool "threw" component in the
  result of an operation; mutations performed before the throw are kept.
* requestFullscreen / exitFullscreen are modelled as taking effect on
  document.fullscreenElement immediately.
-/

/-- The `PluginSettings` interface, src/main.ts lines 3-13. -/
structure PluginSettings where
  animationDuration : ℚ
  showHeader : Bool
  showScroll : Bool
  showGraphControls : Bool
  autoZenMode : Bool
  forceReadable : Bool
  vignetteOpacity : ℚ
  vignetteScaleLinear : ℚ
  vignetteScaleRadial : ℚ
deriving DecidableEq, Repr

/-- `DEFAULT_SETTINGS`, src/main.ts lines 15-25. -/
def DEFAULT_SETTINGS : PluginSettings :=
  { animationDuration := 2
    showHeader := false
    showScroll := false
    showGraphControls := false
    autoZenMode := false
    forceReadable := true
    vignetteOpacity := 0.75
    vignetteScaleLinear := 20
    vignetteScaleRadial := 75 }

/-- Data previously persisted with `saveData`, as read back by `loadData`
(src/main.ts line 48): each field may be present or absent; `none` at the
outer level models `loadData()` returning null (no prior data). -/
structure StoredSettings where
  animationDuration : Option ℚ
  showHeader : Option Bool
  showScroll : Option Bool
  showGraphControls : Option Bool
  autoZenMode : Option Bool
  forceReadable : Option Bool
  vignetteOpacity : Option ℚ
  vignetteScaleLinear : Option ℚ
  vignetteScaleRadial : Option ℚ
deriving DecidableEq, Repr

/-- `loadSettings`, src/main.ts lines 47-49:
`Object.assign({}, DEFAULT_SETTINGS, await this.loadData())` — defaults
first, overridden field-by-field by whatever fields the stored record
has; a null `loadData()` result contributes nothing. -/
def loadSettings (stored : Option StoredSettings) : PluginSettings :=
  match stored with
  | none => DEFAULT_SETTINGS
  | some st =>
    { animationDuration := st.animationDuration.getD DEFAULT_SETTINGS.animationDuration
      showHeader := st.showHeader.getD DEFAULT_SETTINGS.showHeader
      showScroll := st.showScroll.getD DEFAULT_SETTINGS.showScroll
      showGraphControls := st.showGraphControls.getD DEFAULT_SETTINGS.showGraphControls
      autoZenMode := st.autoZenMode.getD DEFAULT_SETTINGS.autoZenMode
      forceReadable := st.forceReadable.getD DEFAULT_SETTINGS.forceReadable
      vignetteOpacity := st.vignetteOpacity.getD DEFAULT_SETTINGS.vignetteOpacity
      vignetteScaleLinear := st.vignetteScaleLinear.getD DEFAULT_SETTINGS.vignetteScaleLinear
      vignetteScaleRadial := st.vignetteScaleRadial.getD DEFAULT_SETTINGS.vignetteScaleRadial }

/-- A CSS class list. `classList.add` is a no-op when the class is already
present, otherwise appends. -/
def classAdd (c : String) (l : List String) : List String :=
  if c ∈ l then l else l ++ [c]

/-- `classList.remove` deletes every occurrence of the class. -/
def classRemove (c : String) (l : List String) : List String :=
  l.filter (fun d => d ≠ c)

/-- JS `String.prototype.trim`: strip leading and trailing whitespace.
(Modelled character-wise; Lean's own `String.trim` is not used because the
development keeps every definition kernel-computable.) -/
def jsTrim (t : String) : String :=
  ⟨((t.data.dropWhile Char.isWhitespace).reverse.dropWhile Char.isWhitespace).reverse⟩

/-- An inline style variable value, e.g. `this.settings.vignetteOpacity + '%'`:
the numeric settings value together with the appended unit suffix. -/
structure CssVar where
  val : ℚ
  unit : String
deriving DecidableEq, Repr

/-- The four custom properties `fullscreenMode` writes on
`document.documentElement` (src/main.ts lines 75-79); `none` = not yet set. -/
structure RootVars where
  fadeInDuration : Option CssVar
  vignetteOpacity : Option CssVar
  vignetteScaleLinear : Option CssVar
  vignetteScaleRadial : Option CssVar
deriving DecidableEq, Repr

/-- The leaf returned by `getActiveViewOfType(ItemView)?.leaf` together with
the parts of its view the plugin touches. `graphControlsClasses` models
`(leaf.view as any).dataEngine?.controlsEl` (absent = `none`), and
`editorClasses` models `(leaf.view as any).editMode?.editorEl`.
`hasContainerEl` records whether `(leaf as any).containerEl` is defined. -/
structure LeafView where
  viewType : String
  contentClasses : List String
  headerClasses : List String
  graphControlsClasses : Option (List String)
  editorClasses : Option (List String)
  hasContainerEl : Bool
deriving DecidableEq, Repr

/-- The whole observable state: the plugin's own fields plus the host state
it reads and the DOM it mutates. `activeLeafViewType` is the view type of
`app.workspace.activeLeaf` (none = no active leaf); `activeEditorText` is
`activeEditor?.editor`'s current `getValue()` (none = no active editor);
`itemViewLeaf` is `getActiveViewOfType(ItemView)?.leaf`. `savedData` is the
durable record written by `saveSettings`. -/
structure SysState where
  settings : PluginSettings
  isInZenMode : Bool
  rootVars : RootVars
  fullscreenElement : Bool
  fsChangeHandlerSet : Bool
  activeLeafViewType : Option String
  activeEditorText : Option String
  itemViewLeaf : Option LeafView
  readableLineLength : Bool
  savedData : Option PluginSettings
deriving DecidableEq, Repr

/-- `addStyles`, src/main.ts lines 101-115, grouped by the element each
`classList.add` call targets (calls on distinct elements commute; the
per-element order of the source is preserved: on the content element the
source adds noscroll (108), then the vignette class (110), then animate
(113)). -/
def addStyles (sett : PluginSettings) (leaf : LeafView) : LeafView :=
  let isGraph := leaf.viewType = "graph"
  { leaf with
    contentClasses :=
      classAdd "animate"
        (classAdd (if isGraph then "vignette-radial" else "vignette-linear")
          (if sett.showScroll = false then classAdd "noscroll" leaf.contentClasses
           else leaf.contentClasses))
    graphControlsClasses :=
      if isGraph ∧ sett.showGraphControls = false then
        leaf.graphControlsClasses.map (classAdd "hide")
      else leaf.graphControlsClasses
    editorClasses :=
      if ¬isGraph ∧ sett.forceReadable = true then
        leaf.editorClasses.map (classAdd "is-readable-line-width")
      else leaf.editorClasses
    headerClasses :=
      if sett.showHeader = true then classAdd "animate" leaf.headerClasses
      else classAdd "hide" leaf.headerClasses }

/-- `removeStyles`, src/main.ts lines 117-134. `readableLineLength` is the
host's `(this.app.vault as any).getConfig('readableLineLength')` flag. The
graph branch and the readable-line-width branch are mutually exclusive
(`if (isGraph) ... else if (!getConfig(...)) ...`). -/
def removeStyles (readableLineLength : Bool) (leaf : LeafView) : LeafView :=
  let isGraph := leaf.viewType = "graph"
  { leaf with
    graphControlsClasses :=
      if isGraph then
        leaf.graphControlsClasses.map (fun l => classRemove "hide" (classRemove "animate" l))
      else leaf.graphControlsClasses
    editorClasses :=
      if ¬isGraph ∧ readableLineLength = false then
        leaf.editorClasses.map (classRemove "is-readable-line-width")
      else leaf.editorClasses
    contentClasses :=
      classRemove "noscroll" (classRemove "animate"
        (classRemove "vignette-radial" (classRemove "vignette-linear" leaf.contentClasses)))
    headerClasses := classRemove "hide" (classRemove "animate" leaf.headerClasses) }

/-- The values written onto the document root by src/main.ts lines 75-79:
duration with an "s" suffix, the three vignette values with a "%" suffix. -/
def styleVarsOf (sett : PluginSettings) : RootVars :=
  { fadeInDuration := some ⟨sett.animationDuration, "s"⟩
    vignetteOpacity := some ⟨sett.vignetteOpacity, "%"⟩
    vignetteScaleLinear := some ⟨sett.vignetteScaleLinear, "%"⟩
    vignetteScaleRadial := some ⟨sett.vignetteScaleRadial, "%"⟩ }

/-- `fullscreenMode` (the toggle), src/main.ts lines 68-99. Returns the
state after the call together with a flag recording whether the call threw.
With a missing `containerEl`: in the enter branch `containerEl.requestFullscreen()`
(line 84) throws before any style or state change of that branch; in the
exit branch lines 88-90 run first and the `onfullscreenchange` assignment
(line 93) throws. -/
def fullscreenMode (s : SysState) : SysState × Bool :=
  match s.itemViewLeaf with
  | none => (s, false)
  | some leaf =>
    if leaf.viewType = "empty" then (s, false)
    else
      let s1 : SysState := { s with rootVars := styleVarsOf s.settings }
      if s1.fullscreenElement = false then
        if leaf.hasContainerEl = false then (s1, true)
        else
          ({ s1 with fullscreenElement := true
                     itemViewLeaf := some (addStyles s1.settings leaf)
                     isInZenMode := true
                     fsChangeHandlerSet := true }, false)
      else
        let s2 : SysState := { s1 with fullscreenElement := false
                                       itemViewLeaf := some (removeStyles s1.readableLineLength leaf)
                                       isInZenMode := false }
        if leaf.hasContainerEl = false then (s2, true)
        else ({ s2 with fsChangeHandlerSet := true }, false)

/-- The `onfullscreenchange` handler installed at src/main.ts lines 93-98,
fired by the host when fullscreen changes: if fullscreen has ended, remove
the styles and clear the zen flag. (The closure captures the leaf it was
installed for; the model carries the single active leaf.) -/
def fireFullscreenChange (s : SysState) : SysState :=
  if s.fsChangeHandlerSet = true ∧ s.fullscreenElement = false then
    match s.itemViewLeaf with
    | some leaf =>
      { s with itemViewLeaf := some (removeStyles s.readableLineLength leaf)
               isInZenMode := false }
    | none => s
  else s

/-- Result of an event handler: final state, whether the handler threw,
and whether it invoked `fullscreenMode`. -/
structure HandlerResult where
  state : SysState
  threw : Bool
  invoked : Bool
deriving DecidableEq, Repr

/-- `handleEditorChange`, src/main.ts lines 55-66. An exception raised by
the inner `fullscreenMode()` call (line 63) propagates, skipping the
`this.isInZenMode = true` assignment on line 64. -/
def handleEditorChange (s : SysState) : HandlerResult :=
  if s.settings.autoZenMode = false ∨ s.isInZenMode = true then ⟨s, false, false⟩
  else
    match s.activeLeafViewType with
    | none => ⟨s, false, false⟩
    | some vt =>
      if vt = "empty" then ⟨s, false, false⟩
      else
        match s.activeEditorText with
        | none => ⟨s, false, false⟩
        | some txt =>
          if (jsTrim txt).length > 0 then
            if (fullscreenMode s).2 = true then ⟨(fullscreenMode s).1, true, true⟩
            else ⟨{ (fullscreenMode s).1 with isInZenMode := true }, false, true⟩
          else ⟨s, false, false⟩

/-- The settings-panel on-change handler for the fade-in duration text field
(src/main.ts lines 222-225): write the field, then `saveSettings` persists
the whole record. -/
def setAnimationDuration (v : ℚ) (s : SysState) : SysState :=
  let ns := { s.settings with animationDuration := v }
  { s with settings := ns, savedData := some ns }

/-- Settings-panel on-change handler for the vignette opacity slider
(src/main.ts lines 161-165). -/
def setVignetteOpacity (v : ℚ) (s : SysState) : SysState :=
  let ns := { s.settings with vignetteOpacity := v }
  { s with settings := ns, savedData := some ns }

/-- Settings-panel on-change handler for the linear vignette scale slider
(src/main.ts lines 181-185). -/
def setVignetteScaleLinear (v : ℚ) (s : SysState) : SysState :=
  let ns := { s.settings with vignetteScaleLinear := v }
  { s with settings := ns, savedData := some ns }

/-- Settings-panel on-change handler for the radial vignette scale slider
(src/main.ts lines 200-204). -/
def setVignetteScaleRadial (v : ℚ) (s : SysState) : SysState :=
  let ns := { s.settings with vignetteScaleRadial := v }
  { s with settings := ns, savedData := some ns }

/-- Settings-panel on-change handler for the show-header toggle
(src/main.ts lines 237-240). -/
def setShowHeader (v : Bool) (s : SysState) : SysState :=
  let ns := { s.settings with showHeader := v }
  { s with settings := ns, savedData := some ns }

/-- Settings-panel on-change handler for the show-scrollbar toggle
(src/main.ts lines 249-252). -/
def setShowScroll (v : Bool) (s : SysState) : SysState :=
  let ns := { s.settings with showScroll := v }
  { s with settings := ns, savedData := some ns }

/-- Settings-panel on-change handler for the show-graph-controls toggle
(src/main.ts lines 261-264). -/
def setShowGraphControls (v : Bool) (s : SysState) : SysState :=
  let ns := { s.settings with showGraphControls := v }
  { s with settings := ns, savedData := some ns }

/-- Settings-panel on-change handler for the auto-zen toggle
(src/main.ts lines 278-281). -/
def setAutoZenMode (v : Bool) (s : SysState) : SysState :=
  let ns := { s.settings with autoZenMode := v }
  { s with settings := ns, savedData := some ns }

/-- Settings-panel on-change handler for the force-readable toggle
(src/main.ts lines 290-293). -/
def setForceReadable (v : Bool) (s : SysState) : SysState :=
  let ns := { s.settings with forceReadable := v }
  { s with settings := ns, savedData := some ns }

/-- `loadSettings` as an operation on the system state (line 48 assigns the
merged record to `this.settings`). -/
def loadSettingsOp (stored : Option StoredSettings) (s : SysState) : SysState :=
  { s with settings := loadSettings stored }

/-- Classes of the active leaf's content element (empty when no leaf). -/
def contentClassesOf (s : SysState) : List String :=
  match s.itemViewLeaf with
  | some leaf => leaf.contentClasses
  | none => []

/-- Classes of the active leaf's header element (empty when no leaf). -/
def headerClassesOf (s : SysState) : List String :=
  match s.itemViewLeaf with
  | some leaf => leaf.headerClasses
  | none => []

/-- Classes of the active leaf's graph-controls element (empty when no leaf
or no controls element). -/
def graphControlsClassesOf (s : SysState) : List String :=
  match s.itemViewLeaf with
  | some leaf => leaf.graphControlsClasses.getD []
  | none => []

/-- Classes of the active leaf's editing-surface element (empty when no
leaf or no editor element). -/
def editorClassesOf (s : SysState) : List String :=
  match s.itemViewLeaf with
  | some leaf => leaf.editorClasses.getD []
  | none => []

/-- A plain markdown leaf with bare elements, used as a concrete test
fixture. -/
def mdLeaf : LeafView :=
  { viewType := "markdown"
    contentClasses := []
    headerClasses := []
    graphControlsClasses := none
    editorClasses := some []
    hasContainerEl := true }

/-- A baseline system state: fresh plugin, defaults loaded, a markdown
leaf active. -/
def baseState : SysState :=
  { settings := DEFAULT_SETTINGS
    isInZenMode := false
    rootVars := { fadeInDuration := none, vignetteOpacity := none
                  vignetteScaleLinear := none, vignetteScaleRadial := none }
    fullscreenElement := false
    fsChangeHandlerSet := false
    activeLeafViewType := some "markdown"
    activeEditorText := some "hello world"
    itemViewLeaf := some mdLeaf
    readableLineLength := false
    savedData := none }

/-- The starting state the plugin sees when `getActiveViewOfType(ItemView)`
resolves no view at all. -/
def noLeafState : SysState := { baseState with itemViewLeaf := none }

/-- A state in which the auto-zen guards hold while the display is already
fullscreen, so the toggle() call inside the handler takes the exit branch
and sets isInZenMode to false before the handler overwrites it. -/
def autoZenExitState : SysState :=
  { baseState with
    settings := { DEFAULT_SETTINGS with autoZenMode := true }
    fullscreenElement := true }

/-- A state with the auto-zen guards satisfied and the display already
fullscreen: the handler's inner toggle() exits (writing isInZenMode false)
and the handler then writes isInZenMode true on its own. -/
def autoZenOverrideState : SysState :=
  { baseState with
    settings := { DEFAULT_SETTINGS with autoZenMode := true }
    activeEditorText := some "draft note"
    fullscreenElement := true }

/-- A markdown leaf whose `containerEl` is absent. -/
def noContainerLeaf : LeafView := { mdLeaf with hasContainerEl := false }

/-- A state whose active ItemView resolves with a non-empty type but whose
leaf has no `containerEl`, display not fullscreen. -/
def noContainerState : SysState := { baseState with itemViewLeaf := some noContainerLeaf }

/-- A non-graph leaf whose editing surface carries the readable-width
class (as it would after entering zen mode with forceReadable on). -/
def readableLeaf : LeafView := { mdLeaf with editorClasses := some ["is-readable-line-width"] }

/-- A graph-view leaf fixture. -/
def graphLeaf : LeafView :=
  { viewType := "graph"
    contentClasses := []
    headerClasses := []
    graphControlsClasses := some []
    editorClasses := none
    hasContainerEl := true }

/-- A state whose internal zen flag disagrees with the host fullscreen
flag (as happens after fullscreen is exited externally while the
`onfullscreenchange` handler is not installed). -/
def zenMismatchState : SysState := { baseState with isInZenMode := true }

/-- A state in which the host's global readable-line-length setting is on
while the editing surface does not carry the readable-width class. -/
def readableStayState : SysState := { baseState with readableLineLength := true }

theorem mem_classAdd {c d : String} {l : List String} :
    c ∈ classAdd d l ↔ c = d ∨ c ∈ l := by
  unfold classAdd
  split
  · rename_i hd
    constructor
    · exact fun h => Or.inr h
    · rintro (rfl | h)
      · exact hd
      · exact h
  · simp [or_comm]

theorem mem_classRemove {c d : String} {l : List String} :
    c ∈ classRemove d l ↔ c ∈ l ∧ c ≠ d := by
  simp [classRemove, List.mem_filter]

theorem addStyles_viewType (sett : PluginSettings) (leaf : LeafView) :
    (addStyles sett leaf).viewType = leaf.viewType := rfl

theorem addStyles_hasContainerEl (sett : PluginSettings) (leaf : LeafView) :
    (addStyles sett leaf).hasContainerEl = leaf.hasContainerEl := rfl

theorem removeStyles_viewType (r : Bool) (leaf : LeafView) :
    (removeStyles r leaf).viewType = leaf.viewType := rfl

theorem removeStyles_hasContainerEl (r : Bool) (leaf : LeafView) :
    (removeStyles r leaf).hasContainerEl = leaf.hasContainerEl := rfl

theorem addStyles_contentClasses (sett : PluginSettings) (leaf : LeafView) :
    (addStyles sett leaf).contentClasses =
      classAdd "animate"
        (classAdd (if leaf.viewType = "graph" then "vignette-radial" else "vignette-linear")
          (if sett.showScroll = false then classAdd "noscroll" leaf.contentClasses
           else leaf.contentClasses)) := rfl

theorem addStyles_headerClasses (sett : PluginSettings) (leaf : LeafView) :
    (addStyles sett leaf).headerClasses =
      (if sett.showHeader = true then classAdd "animate" leaf.headerClasses
       else classAdd "hide" leaf.headerClasses) := rfl

theorem addStyles_graphControlsClasses (sett : PluginSettings) (leaf : LeafView) :
    (addStyles sett leaf).graphControlsClasses =
      (if leaf.viewType = "graph" ∧ sett.showGraphControls = false then
        leaf.graphControlsClasses.map (classAdd "hide")
       else leaf.graphControlsClasses) := rfl

theorem addStyles_editorClasses (sett : PluginSettings) (leaf : LeafView) :
    (addStyles sett leaf).editorClasses =
      (if ¬leaf.viewType = "graph" ∧ sett.forceReadable = true then
        leaf.editorClasses.map (classAdd "is-readable-line-width")
       else leaf.editorClasses) := rfl

theorem removeStyles_contentClasses (r : Bool) (leaf : LeafView) :
    (removeStyles r leaf).contentClasses =
      classRemove "noscroll" (classRemove "animate"
        (classRemove "vignette-radial" (classRemove "vignette-linear" leaf.contentClasses))) := rfl

theorem removeStyles_headerClasses (r : Bool) (leaf : LeafView) :
    (removeStyles r leaf).headerClasses =
      classRemove "hide" (classRemove "animate" leaf.headerClasses) := rfl

theorem removeStyles_graphControlsClasses (r : Bool) (leaf : LeafView) :
    (removeStyles r leaf).graphControlsClasses =
      (if leaf.viewType = "graph" then
        leaf.graphControlsClasses.map (fun l => classRemove "hide" (classRemove "animate" l))
       else leaf.graphControlsClasses) := rfl

theorem removeStyles_editorClasses (r : Bool) (leaf : LeafView) :
    (removeStyles r leaf).editorClasses =
      (if ¬leaf.viewType = "graph" ∧ r = false then
        leaf.editorClasses.map (classRemove "is-readable-line-width")
       else leaf.editorClasses) := rfl

theorem fullscreenMode_enter (s : SysState) (leaf : LeafView)
    (h1 : s.itemViewLeaf = some leaf) (h2 : leaf.viewType ≠ "empty")
    (h3 : s.fullscreenElement = false) (h4 : leaf.hasContainerEl = true) :
    fullscreenMode s =
      ({ s with rootVars := styleVarsOf s.settings
                fullscreenElement := true
                itemViewLeaf := some (addStyles s.settings leaf)
                isInZenMode := true
                fsChangeHandlerSet := true }, false) := by
  simp [fullscreenMode, h1, h2, h3, h4]

theorem fullscreenMode_exit (s : SysState) (leaf : LeafView)
    (h1 : s.itemViewLeaf = some leaf) (h2 : leaf.viewType ≠ "empty")
    (h3 : s.fullscreenElement = true) (h4 : leaf.hasContainerEl = true) :
    fullscreenMode s =
      ({ s with rootVars := styleVarsOf s.settings
                fullscreenElement := false
                itemViewLeaf := some (removeStyles s.readableLineLength leaf)
                isInZenMode := false
                fsChangeHandlerSet := true }, false) := by
  simp [fullscreenMode, h1, h2, h3, h4]

theorem fullscreenMode_enter_throw (s : SysState) (leaf : LeafView)
    (h1 : s.itemViewLeaf = some leaf) (h2 : leaf.viewType ≠ "empty")
    (h3 : s.fullscreenElement = false) (h4 : leaf.hasContainerEl = false) :
    fullscreenMode s = ({ s with rootVars := styleVarsOf s.settings }, true) := by
  simp [fullscreenMode, h1, h2, h3, h4]

theorem fullscreenMode_exit_throw (s : SysState) (leaf : LeafView)
    (h1 : s.itemViewLeaf = some leaf) (h2 : leaf.viewType ≠ "empty")
    (h3 : s.fullscreenElement = true) (h4 : leaf.hasContainerEl = false) :
    fullscreenMode s =
      ({ s with rootVars := styleVarsOf s.settings
                fullscreenElement := false
                itemViewLeaf := some (removeStyles s.readableLineLength leaf)
                isInZenMode := false }, true) := by
  simp [fullscreenMode, h1, h2, h3, h4]

theorem mem_contentClasses_addStyles {sett : PluginSettings} {leaf : LeafView} {c : String}
    (h : c ∈ (addStyles sett leaf).contentClasses) :
    c ∈ leaf.contentClasses ∨
      c ∈ ["noscroll", "vignette-radial", "vignette-linear", "animate"] := by
  rw [addStyles_contentClasses] at h
  rcases mem_classAdd.1 h with rfl | h
  · simp
  rcases mem_classAdd.1 h with h | h
  · split at h <;> subst h <;> simp
  by_cases hs : sett.showScroll = false
  · rw [if_pos hs] at h
    rcases mem_classAdd.1 h with rfl | h
    · simp
    · exact Or.inl h
  · rw [if_neg hs] at h
    exact Or.inl h

theorem mem_headerClasses_addStyles {sett : PluginSettings} {leaf : LeafView} {c : String}
    (h : c ∈ (addStyles sett leaf).headerClasses) :
    c ∈ leaf.headerClasses ∨ c ∈ ["animate", "hide"] := by
  rw [addStyles_headerClasses] at h
  split at h <;> rcases mem_classAdd.1 h with rfl | h <;> simp [h]

theorem mem_graphControls_addStyles {sett : PluginSettings} {leaf : LeafView} {c : String}
    (h : c ∈ (addStyles sett leaf).graphControlsClasses.getD []) :
    c ∈ leaf.graphControlsClasses.getD [] ∨ c = "hide" := by
  rw [addStyles_graphControlsClasses] at h
  split at h
  · cases hg : leaf.graphControlsClasses with
    | none => rw [hg] at h; exact absurd h (List.not_mem_nil c)
    | some l =>
      rw [hg] at h
      simp only [Option.map_some', Option.getD_some] at h
      rcases mem_classAdd.1 h with rfl | h
      · exact Or.inr rfl
      · simp only [Option.getD_some]
        exact Or.inl h
  · exact Or.inl h

theorem mem_editorClasses_addStyles {sett : PluginSettings} {leaf : LeafView} {c : String}
    (h : c ∈ (addStyles sett leaf).editorClasses.getD []) :
    c ∈ leaf.editorClasses.getD [] ∨ c = "is-readable-line-width" := by
  rw [addStyles_editorClasses] at h
  split at h
  · cases hg : leaf.editorClasses with
    | none => rw [hg] at h; exact absurd h (List.not_mem_nil c)
    | some l =>
      rw [hg] at h
      simp only [Option.map_some', Option.getD_some] at h
      rcases mem_classAdd.1 h with rfl | h
      · exact Or.inr rfl
      · simp only [Option.getD_some]
        exact Or.inl h
  · exact Or.inl h

theorem mem_contentClasses_removeStyles {r : Bool} {leaf : LeafView} {c : String}
    (h : c ∈ (removeStyles r leaf).contentClasses) : c ∈ leaf.contentClasses := by
  rw [removeStyles_contentClasses] at h
  exact (mem_classRemove.1 (mem_classRemove.1 (mem_classRemove.1 (mem_classRemove.1 h).1).1).1).1

theorem not_mem_contentClasses_removeStyles {r : Bool} {leaf : LeafView} {c : String}
    (hc : c ∈ ["noscroll", "vignette-radial", "vignette-linear", "animate"]) :
    c ∉ (removeStyles r leaf).contentClasses := by
  intro h
  rw [removeStyles_contentClasses] at h
  have h1 := mem_classRemove.1 h
  have h2 := mem_classRemove.1 h1.1
  have h3 := mem_classRemove.1 h2.1
  have h4 := mem_classRemove.1 h3.1
  simp only [List.mem_cons, List.not_mem_nil, or_false] at hc
  rcases hc with rfl | rfl | rfl | rfl
  · exact h1.2 rfl
  · exact h3.2 rfl
  · exact h4.2 rfl
  · exact h2.2 rfl

theorem mem_headerClasses_removeStyles {r : Bool} {leaf : LeafView} {c : String}
    (h : c ∈ (removeStyles r leaf).headerClasses) : c ∈ leaf.headerClasses := by
  rw [removeStyles_headerClasses] at h
  exact (mem_classRemove.1 (mem_classRemove.1 h).1).1

theorem not_mem_headerClasses_removeStyles {r : Bool} {leaf : LeafView} {c : String}
    (hc : c ∈ ["animate", "hide"]) :
    c ∉ (removeStyles r leaf).headerClasses := by
  intro h
  rw [removeStyles_headerClasses] at h
  have h1 := mem_classRemove.1 h
  have h2 := mem_classRemove.1 h1.1
  simp only [List.mem_cons, List.not_mem_nil, or_false] at hc
  rcases hc with rfl | rfl
  · exact h2.2 rfl
  · exact h1.2 rfl

theorem mem_graphControls_removeStyles {r : Bool} {leaf : LeafView} {c : String}
    (h : c ∈ (removeStyles r leaf).graphControlsClasses.getD []) :
    c ∈ leaf.graphControlsClasses.getD [] := by
  rw [removeStyles_graphControlsClasses] at h
  split at h
  · cases hg : leaf.graphControlsClasses with
    | none => rw [hg] at h; exact absurd h (List.not_mem_nil c)
    | some l =>
      rw [hg] at h
      simp only [Option.map_some', Option.getD_some] at h
      simp only [Option.getD_some]
      exact (mem_classRemove.1 (mem_classRemove.1 h).1).1
  · exact h

theorem not_mem_graphControls_removeStyles {r : Bool} {leaf : LeafView} {c : String}
    (hg : leaf.viewType = "graph") (hc : c ∈ ["animate", "hide"]) :
    c ∉ (removeStyles r leaf).graphControlsClasses.getD [] := by
  intro h
  rw [removeStyles_graphControlsClasses, if_pos hg] at h
  cases ho : leaf.graphControlsClasses with
  | none => rw [ho] at h; exact absurd h (List.not_mem_nil c)
  | some l =>
    rw [ho] at h
    simp only [Option.map_some', Option.getD_some] at h
    have h1 := mem_classRemove.1 h
    have h2 := mem_classRemove.1 h1.1
    simp only [List.mem_cons, List.not_mem_nil, or_false] at hc
    rcases hc with rfl | rfl
    · exact h2.2 rfl
    · exact h1.2 rfl

theorem mem_editorClasses_removeStyles {r : Bool} {leaf : LeafView} {c : String}
    (h : c ∈ (removeStyles r leaf).editorClasses.getD []) :
    c ∈ leaf.editorClasses.getD [] := by
  rw [removeStyles_editorClasses] at h
  split at h
  · cases hg : leaf.editorClasses with
    | none => rw [hg] at h; exact absurd h (List.not_mem_nil c)
    | some l =>
      rw [hg] at h
      simp only [Option.map_some', Option.getD_some] at h
      simp only [Option.getD_some]
      exact (mem_classRemove.1 h).1
  · exact h

theorem not_mem_editorClasses_removeStyles {leaf : LeafView}
    (hg : leaf.viewType ≠ "graph") :
    "is-readable-line-width" ∉ (removeStyles false leaf).editorClasses.getD [] := by
  intro h
  rw [removeStyles_editorClasses, if_pos ⟨hg, rfl⟩] at h
  cases ho : leaf.editorClasses with
  | none => rw [ho] at h; exact absurd h (List.not_mem_nil _)
  | some l =>
    rw [ho] at h
    simp only [Option.map_some', Option.getD_some] at h
    exact (mem_classRemove.1 h).2 rfl

/-- Claim C7: loadSettings() with no prior stored data yields exactly the
documented defaults for every PreferenceSet field (animationDuration=2,
showHeader=false, showScroll=false, showGraphControls=false,
autoZenMode=false, forceReadable=true, vignetteOpacity=0.75,
vignetteScaleLinear=20, vignetteScaleRadial=75); with stored data
containing a subset of fields, it yields the stored value for every
present field and the default for every absent field. -/
theorem loadSettings_defaults_and_merge (st : StoredSettings) :
    loadSettings none = DEFAULT_SETTINGS ∧
    DEFAULT_SETTINGS.animationDuration = 2 ∧
    DEFAULT_SETTINGS.showHeader = false ∧
    DEFAULT_SETTINGS.showScroll = false ∧
    DEFAULT_SETTINGS.showGraphControls = false ∧
    DEFAULT_SETTINGS.autoZenMode = false ∧
    DEFAULT_SETTINGS.forceReadable = true ∧
    DEFAULT_SETTINGS.vignetteOpacity = 0.75 ∧
    DEFAULT_SETTINGS.vignetteScaleLinear = 20 ∧
    DEFAULT_SETTINGS.vignetteScaleRadial = 75 ∧
    (loadSettings (some st)).animationDuration = st.animationDuration.getD 2 ∧
    (loadSettings (some st)).showHeader = st.showHeader.getD false ∧
    (loadSettings (some st)).showScroll = st.showScroll.getD false ∧
    (loadSettings (some st)).showGraphControls = st.showGraphControls.getD false ∧
    (loadSettings (some st)).autoZenMode = st.autoZenMode.getD false ∧
    (loadSettings (some st)).forceReadable = st.forceReadable.getD true ∧
    (loadSettings (some st)).vignetteOpacity = st.vignetteOpacity.getD 0.75 ∧
    (loadSettings (some st)).vignetteScaleLinear = st.vignetteScaleLinear.getD 20 ∧
    (loadSettings (some st)).vignetteScaleRadial = st.vignetteScaleRadial.getD 75 :=
  ⟨rfl, rfl, rfl, rfl, rfl, rfl, rfl, rfl, rfl, rfl,
   rfl, rfl, rfl, rfl, rfl, rfl, rfl, rfl, rfl⟩

/-- Claim C8: if no active ItemView-typed view resolves, or the resolved
view's type is the empty-placeholder type, toggle() returns the state
completely unchanged — same ZenState, same root style variables, same
classes, same fullscreen flag, same handler registration — and returns
normally. -/
theorem toggle_no_view_frame (s : SysState)
    (h : s.itemViewLeaf = none ∨
      ∃ leaf, s.itemViewLeaf = some leaf ∧ leaf.viewType = "empty") :
    fullscreenMode s = (s, false) := by
  rcases h with h | ⟨leaf, hl, ht⟩
  · simp [fullscreenMode, h]
  · simp [fullscreenMode, hl, ht]

/-- Witness for C8 at a concrete state with no resolvable ItemView. -/
theorem toggle_no_view_frame_witness :
    noLeafState.itemViewLeaf = none ∧ fullscreenMode noLeafState = (noLeafState, false) :=
  ⟨rfl, toggle_no_view_frame noLeafState (Or.inl rfl)⟩

/-- Claim C9: any toggle() invocation that passes the view guards writes
all four document-root style variables from the current preferences —
fade duration with an "s" suffix from animationDuration, vignette opacity
as a percentage string from vignetteOpacity, linear and radial vignette
scales as percentages — in both directions. -/
theorem toggle_writes_root_style_vars (s : SysState) (leaf : LeafView)
    (h1 : s.itemViewLeaf = some leaf) (h2 : leaf.viewType ≠ "empty") :
    (fullscreenMode s).1.rootVars =
      { fadeInDuration := some ⟨s.settings.animationDuration, "s"⟩
        vignetteOpacity := some ⟨s.settings.vignetteOpacity, "%"⟩
        vignetteScaleLinear := some ⟨s.settings.vignetteScaleLinear, "%"⟩
        vignetteScaleRadial := some ⟨s.settings.vignetteScaleRadial, "%"⟩ } := by
  by_cases h3 : s.fullscreenElement = false
  · by_cases h4 : leaf.hasContainerEl = true
    · rw [fullscreenMode_enter s leaf h1 h2 h3 h4]
      rfl
    · rw [fullscreenMode_enter_throw s leaf h1 h2 h3 (by simpa using h4)]
      rfl
  · have h3' : s.fullscreenElement = true := by simpa using h3
    by_cases h4 : leaf.hasContainerEl = true
    · rw [fullscreenMode_exit s leaf h1 h2 h3' h4]
      rfl
    · rw [fullscreenMode_exit_throw s leaf h1 h2 h3' (by simpa using h4)]
      rfl

/-- Witness for C9: on the baseline state the root variables come out as
2s fade, 0.75% opacity, 20% linear scale, 75% radial scale. -/
theorem toggle_writes_root_style_vars_witness :
    (fullscreenMode baseState).1.rootVars =
      { fadeInDuration := some ⟨2, "s"⟩
        vignetteOpacity := some ⟨0.75, "%"⟩
        vignetteScaleLinear := some ⟨20, "%"⟩
        vignetteScaleRadial := some ⟨75, "%"⟩ } :=
  toggle_writes_root_style_vars baseState mdLeaf rfl (by decide)

theorem string_length_pos_iff (t : String) : t.length > 0 ↔ t ≠ "" := by
  rcases t with ⟨l⟩
  constructor
  · intro hp he
    have hd : l = [] := congrArg String.data he
    rw [hd] at hp
    exact absurd hp (by decide)
  · intro hne
    cases l with
    | nil => exact absurd rfl hne
    | cons a as => exact Nat.succ_pos _

/-- Claim C3: the auto-zen trigger invokes toggle() exactly when the
autoZenMode preference is on, ZenState is not already Zen, an active view
exists whose type is not the empty-placeholder type, and an active editor
exists whose text is non-empty after trimming whitespace. -/
theorem auto_zen_guard_exact (s : SysState) :
    (handleEditorChange s).invoked = true ↔
      (s.settings.autoZenMode = true ∧ s.isInZenMode = false ∧
       (∃ vt, s.activeLeafViewType = some vt ∧ vt ≠ "empty") ∧
       (∃ txt, s.activeEditorText = some txt ∧ jsTrim txt ≠ "")) := by
  obtain ⟨sett, zen, rv, fse, fsh, alvt, aet, ivl, rll, sd⟩ := s
  obtain ⟨ad, sh, ss, sgc, azm, fr, vo, vsl, vsr⟩ := sett
  cases azm with
  | false => simp [handleEditorChange]
  | true =>
    cases zen with
    | true => simp [handleEditorChange]
    | false =>
      cases alvt with
      | none => simp [handleEditorChange]
      | some vt =>
        by_cases hvt : vt = "empty"
        · subst hvt
          simp [handleEditorChange]
        · cases aet with
          | none => simp [handleEditorChange, hvt]
          | some txt =>
            by_cases ht : (jsTrim txt).length > 0
            · have hne := (string_length_pos_iff (jsTrim txt)).1 ht
              simp [handleEditorChange, hvt, ht, hne]
              try (split <;> rfl)
            · have hemp : jsTrim txt = "" := by
                by_contra hne
                exact ht ((string_length_pos_iff (jsTrim txt)).2 hne)
              simp [handleEditorChange, hvt, ht, hemp]

theorem handleEditorChange_skip (s : SysState)
    (hinv : (handleEditorChange s).invoked = false) :
    handleEditorChange s = ⟨s, false, false⟩ := by
  obtain ⟨sett, zen, rv, fse, fsh, alvt, aet, ivl, rll, sd⟩ := s
  obtain ⟨ad, sh, ss, sgc, azm, fr, vo, vsl, vsr⟩ := sett
  cases azm with
  | false => rfl
  | true =>
    cases zen with
    | true => rfl
    | false =>
      cases alvt with
      | none => rfl
      | some vt =>
        by_cases hvt : vt = "empty"
        · subst hvt
          rfl
        · cases aet with
          | none => simp [handleEditorChange, hvt]
          | some txt =>
            by_cases ht : (jsTrim txt).length > 0
            · exfalso
              simp [handleEditorChange, hvt, ht] at hinv
              split at hinv
              · exact Bool.noConfusion hinv
              · exact Bool.noConfusion hinv
            · simp [handleEditorChange, hvt, ht]

theorem handleEditorChange_invoked_shape (s : SysState)
    (hinv : (handleEditorChange s).invoked = true) :
    handleEditorChange s =
      if (fullscreenMode s).2 = true then ⟨(fullscreenMode s).1, true, true⟩
      else ⟨{ (fullscreenMode s).1 with isInZenMode := true }, false, true⟩ := by
  obtain ⟨sett, zen, rv, fse, fsh, alvt, aet, ivl, rll, sd⟩ := s
  obtain ⟨ad, sh, ss, sgc, azm, fr, vo, vsl, vsr⟩ := sett
  cases azm with
  | false => exact Bool.noConfusion hinv
  | true =>
    cases zen with
    | true => exact Bool.noConfusion hinv
    | false =>
      cases alvt with
      | none => exact Bool.noConfusion hinv
      | some vt =>
        by_cases hvt : vt = "empty"
        · subst hvt
          exact Bool.noConfusion hinv
        · cases aet with
          | none =>
            exfalso
            simp [handleEditorChange, hvt] at hinv
          | some txt =>
            by_cases ht : (jsTrim txt).length > 0
            · simp [handleEditorChange, hvt, ht]
            · exfalso
              simp [handleEditorChange, hvt, ht] at hinv

/-- Claim C10: whenever the auto-zen trigger's guards all hold (so it
invokes toggle()) and the handler returns normally, ZenState is true after
the handler — whatever toggle() itself did (no-op because no ItemView leaf
resolved, entered, or exited and set it false), the final assignment on
src/main.ts line 64 leaves isInZenMode true. -/
theorem auto_zen_forces_zen_flag (s : SysState)
    (h1 : (handleEditorChange s).invoked = true)
    (h2 : (handleEditorChange s).threw = false) :
    (handleEditorChange s).state.isInZenMode = true := by
  rw [handleEditorChange_invoked_shape s h1] at h2 ⊢
  by_cases hf : (fullscreenMode s).2 = true
  · rw [if_pos hf] at h2
    exact Bool.noConfusion h2
  · rw [if_neg hf]

/-- Witness for C10: on `autoZenExitState` the toggle() sub-call itself
sets isInZenMode false (exit branch), yet the handler ends with it true. -/
theorem auto_zen_forces_zen_flag_witness :
    (fullscreenMode autoZenExitState).1.isInZenMode = false ∧
    (handleEditorChange autoZenExitState).state.isInZenMode = true :=
  ⟨by decide, auto_zen_forces_zen_flag autoZenExitState (by decide) (by decide)⟩

/-- Counterexample to claim C1 as stated: handleEditorChange (src/main.ts
line 64) also writes isInZenMode. On `autoZenOverrideState` the inner
toggle() call leaves isInZenMode = false (exit branch), yet after the
handler returns isInZenMode = true — so after this other handler the flag
does NOT equal what toggle() last set it to. -/
theorem handleEditorChange_overrides_toggle_write :
    (fullscreenMode autoZenOverrideState).1.isInZenMode = false ∧
    (handleEditorChange autoZenOverrideState).invoked = true ∧
    (handleEditorChange autoZenOverrideState).threw = false ∧
    (handleEditorChange autoZenOverrideState).state.isInZenMode = true := by
  refine ⟨by decide, by decide, by decide, by decide⟩

/-- Claim C1, amended: toggle() (fullscreenMode, together with the
fullscreen-change handler it installs) and the auto-zen handler
handleEditorChange are the only mutators of ZenState — the nine
settings-panel handlers and loadSettings never write it — but
handleEditorChange, after invoking toggle(), overwrites isInZenMode to
true whenever its guards passed and toggle() returned normally, so after
that handler the flag need not equal what toggle() last set. -/
theorem zenstate_mutators (s : SysState) (q : ℚ) (b : Bool) (st : Option StoredSettings) :
    (setAnimationDuration q s).isInZenMode = s.isInZenMode ∧
    (setShowHeader b s).isInZenMode = s.isInZenMode ∧
    (setShowScroll b s).isInZenMode = s.isInZenMode ∧
    (setShowGraphControls b s).isInZenMode = s.isInZenMode ∧
    (setAutoZenMode b s).isInZenMode = s.isInZenMode ∧
    (setForceReadable b s).isInZenMode = s.isInZenMode ∧
    (setVignetteOpacity q s).isInZenMode = s.isInZenMode ∧
    (setVignetteScaleLinear q s).isInZenMode = s.isInZenMode ∧
    (setVignetteScaleRadial q s).isInZenMode = s.isInZenMode ∧
    (loadSettingsOp st s).isInZenMode = s.isInZenMode ∧
    ((handleEditorChange s).invoked = false → handleEditorChange s = ⟨s, false, false⟩) ∧
    ((handleEditorChange s).invoked = true → (handleEditorChange s).threw = false →
      (handleEditorChange s).state.isInZenMode = true) := by
  refine ⟨rfl, rfl, rfl, rfl, rfl, rfl, rfl, rfl, rfl, rfl, ?_, ?_⟩
  · intro h
    exact handleEditorChange_skip s h
  · intro h1 h2
    rw [handleEditorChange_invoked_shape s h1] at h2 ⊢
    by_cases hf : (fullscreenMode s).2 = true
    · rw [if_pos hf] at h2
      exact Bool.noConfusion h2
    · rw [if_neg hf]

/-- Witness for the amended C1 at concrete inputs: a settings write keeps
the flag, and an invoked non-throwing handler run ends with the flag true. -/
theorem zenstate_mutators_witness :
    (setVignetteOpacity 0.3 baseState).isInZenMode = baseState.isInZenMode ∧
    (handleEditorChange autoZenOverrideState).state.isInZenMode = true :=
  ⟨(zenstate_mutators baseState 0.3 false none).2.2.2.2.2.2.1,
   (zenstate_mutators autoZenOverrideState 0.3 false none).2.2.2.2.2.2.2.2.2.2.2
     (by decide) (by decide)⟩

/-- Counterexample to claim C5 as stated: with a resolvable non-empty view
whose container element is absent, toggle() is NOT a no-op and does fail —
it writes the four root style variables (lines 75-79 run before the
container is used) and then throws a TypeError at
`containerEl.requestFullscreen()` (line 84). ZenState is indeed unchanged
here, but styles were applied and the call threw. -/
theorem toggle_missing_container_not_noop :
    (fullscreenMode noContainerState).2 = true ∧
    (fullscreenMode noContainerState).1.rootVars ≠ noContainerState.rootVars ∧
    (fullscreenMode noContainerState).1.isInZenMode = noContainerState.isInZenMode := by
  refine ⟨by decide, ?_, by decide⟩
  intro h
  have hh : (fullscreenMode noContainerState).1.rootVars.fadeInDuration =
      noContainerState.rootVars.fadeInDuration := by rw [h]
  exact Option.noConfusion hh

/-- Claim C5, amended: if the active view resolves with a non-empty type
but its container element is absent, toggle() writes the four root style
variables and then throws. When the display was not fullscreen, nothing
else happens: no fullscreen request took effect, no classes changed,
ZenState is unchanged. When the display was fullscreen, the exit branch
(lines 88-90) runs first — fullscreen is exited, exit styles are applied
and ZenState is set false — and the throw happens afterwards at the
`onfullscreenchange` assignment (line 93). -/
theorem toggle_missing_container (s : SysState) (leaf : LeafView)
    (h1 : s.itemViewLeaf = some leaf) (h2 : leaf.viewType ≠ "empty")
    (h3 : leaf.hasContainerEl = false) :
    (fullscreenMode s).2 = true ∧
    (s.fullscreenElement = false →
      (fullscreenMode s).1 = { s with rootVars := styleVarsOf s.settings }) ∧
    (s.fullscreenElement = true →
      (fullscreenMode s).1 =
        { s with rootVars := styleVarsOf s.settings
                 fullscreenElement := false
                 itemViewLeaf := some (removeStyles s.readableLineLength leaf)
                 isInZenMode := false }) := by
  by_cases hf : s.fullscreenElement = false
  · rw [fullscreenMode_enter_throw s leaf h1 h2 hf h3]
    refine ⟨rfl, fun _ => rfl, fun hc => ?_⟩
    rw [hf] at hc
    exact Bool.noConfusion hc
  · have hf' : s.fullscreenElement = true := by simpa using hf
    rw [fullscreenMode_exit_throw s leaf h1 h2 hf' h3]
    refine ⟨rfl, fun hc => ?_, fun _ => rfl⟩
    rw [hf'] at hc
    exact Bool.noConfusion hc

/-- Witness for the amended C5 at the concrete no-container state. -/
theorem toggle_missing_container_witness :
    (fullscreenMode noContainerState).2 = true ∧
    (fullscreenMode noContainerState).1 =
      { noContainerState with rootVars := styleVarsOf noContainerState.settings } :=
  ⟨(toggle_missing_container noContainerState noContainerLeaf rfl (by decide) rfl).1,
   (toggle_missing_container noContainerState noContainerLeaf rfl (by decide) rfl).2.1 rfl⟩

/-- Claim C4: on exit-zen style application for a non-graph view, the
readable-width class is removed from the editing-surface element exactly
when the host's global readable-line-length setting is off; when that
setting is on the element is left untouched; for a graph-type view the
editing surface is never touched on exit. -/
theorem exit_readable_width_policy (r : Bool) (leaf : LeafView) (ecl : List String)
    (h : leaf.editorClasses = some ecl) :
    (leaf.viewType ≠ "graph" → r = false →
      (removeStyles r leaf).editorClasses = some (classRemove "is-readable-line-width" ecl) ∧
      "is-readable-line-width" ∉ classRemove "is-readable-line-width" ecl) ∧
    (leaf.viewType ≠ "graph" → r = true →
      (removeStyles r leaf).editorClasses = some ecl) ∧
    (leaf.viewType = "graph" →
      (removeStyles r leaf).editorClasses = some ecl) := by
  refine ⟨fun hg hr => ?_, fun hg hr => ?_, fun hg => ?_⟩
  · subst hr
    rw [removeStyles_editorClasses, if_pos ⟨hg, rfl⟩, h]
    refine ⟨rfl, fun hm => ?_⟩
    exact (mem_classRemove.1 hm).2 rfl
  · subst hr
    have hc : ¬(¬leaf.viewType = "graph" ∧ (true : Bool) = false) := by
      rintro ⟨-, hb⟩
      exact Bool.noConfusion hb
    rw [removeStyles_editorClasses, if_neg hc, h]
  · have hc : ¬(¬leaf.viewType = "graph" ∧ r = false) := by
      rintro ⟨hng, -⟩
      exact hng hg
    rw [removeStyles_editorClasses, if_neg hc, h]

/-- Witness for C4: with the global setting off the class is gone; with it
on the element is untouched. -/
theorem exit_readable_width_policy_witness :
    (removeStyles false readableLeaf).editorClasses = some [] ∧
    (removeStyles true readableLeaf).editorClasses = some ["is-readable-line-width"] :=
  ⟨((exit_readable_width_policy false readableLeaf ["is-readable-line-width"] rfl).1
      (by decide) rfl).1,
   (exit_readable_width_policy true readableLeaf ["is-readable-line-width"] rfl).2.1
      (by decide) rfl⟩

/-- Claim C6: on enter-zen style application the content element gains
exactly one vignette class — the radial variant exactly when the view is
the graph type, the linear variant otherwise, never both. (Stated for a
content element carrying neither variant, i.e. outside zen mode.) -/
theorem enter_vignette_exclusive (sett : PluginSettings) (leaf : LeafView)
    (h1 : "vignette-radial" ∉ leaf.contentClasses)
    (h2 : "vignette-linear" ∉ leaf.contentClasses) :
    (leaf.viewType = "graph" →
      "vignette-radial" ∈ (addStyles sett leaf).contentClasses ∧
      "vignette-linear" ∉ (addStyles sett leaf).contentClasses) ∧
    (leaf.viewType ≠ "graph" →
      "vignette-linear" ∈ (addStyles sett leaf).contentClasses ∧
      "vignette-radial" ∉ (addStyles sett leaf).contentClasses) := by
  have hbr : "vignette-radial" ∉
      (if sett.showScroll = false then classAdd "noscroll" leaf.contentClasses
       else leaf.contentClasses) := by
    split
    · intro hm
      rcases mem_classAdd.1 hm with h | h
      · exact absurd h (by decide)
      · exact h1 h
    · exact h1
  have hbl : "vignette-linear" ∉
      (if sett.showScroll = false then classAdd "noscroll" leaf.contentClasses
       else leaf.contentClasses) := by
    split
    · intro hm
      rcases mem_classAdd.1 hm with h | h
      · exact absurd h (by decide)
      · exact h2 h
    · exact h2
  constructor
  · intro hg
    rw [addStyles_contentClasses, if_pos hg]
    constructor
    · exact mem_classAdd.2 (Or.inr (mem_classAdd.2 (Or.inl rfl)))
    · intro hm
      rcases mem_classAdd.1 hm with h | hm
      · exact absurd h (by decide)
      rcases mem_classAdd.1 hm with h | hm
      · exact absurd h (by decide)
      · exact hbl hm
  · intro hg
    rw [addStyles_contentClasses, if_neg hg]
    constructor
    · exact mem_classAdd.2 (Or.inr (mem_classAdd.2 (Or.inl rfl)))
    · intro hm
      rcases mem_classAdd.1 hm with h | hm
      · exact absurd h (by decide)
      rcases mem_classAdd.1 hm with h | hm
      · exact absurd h (by decide)
      · exact hbr hm

/-- Witness for C6 at concrete leaves: graph view gets only the radial
variant; markdown view gets only the linear one. -/
theorem enter_vignette_exclusive_witness :
    ("vignette-radial" ∈ (addStyles DEFAULT_SETTINGS graphLeaf).contentClasses ∧
     "vignette-linear" ∉ (addStyles DEFAULT_SETTINGS graphLeaf).contentClasses) ∧
    ("vignette-linear" ∈ (addStyles DEFAULT_SETTINGS mdLeaf).contentClasses ∧
     "vignette-radial" ∉ (addStyles DEFAULT_SETTINGS mdLeaf).contentClasses) :=
  ⟨(enter_vignette_exclusive DEFAULT_SETTINGS graphLeaf (by decide) (by decide)).1 rfl,
   (enter_vignette_exclusive DEFAULT_SETTINGS mdLeaf (by decide) (by decide)).2 (by decide)⟩

/-- Counterexample to claim C2 as stated, at two starting states with a
resolvable non-empty active view. On `zenMismatchState` (ZenState true,
display not fullscreen) two toggle() calls leave ZenState false, not its
original true. On `readableStayState` (global readable-line-length on)
the first call adds the readable-width class to the editing surface — it
was not there before — and the second call leaves it in place. -/
theorem toggle_round_trip_failures :
    (zenMismatchState.isInZenMode = true ∧
     (fullscreenMode (fullscreenMode zenMismatchState).1).1.isInZenMode = false) ∧
    (("is-readable-line-width" ∉ editorClassesOf readableStayState) ∧
     ("is-readable-line-width" ∈ editorClassesOf (fullscreenMode readableStayState).1) ∧
     ("is-readable-line-width" ∈
       editorClassesOf (fullscreenMode (fullscreenMode readableStayState).1).1)) := by
  refine ⟨⟨by decide, by decide⟩, by decide, by decide, by decide⟩

/-- Claim C2, amended: for every starting state with a resolvable
non-empty active view whose container element is present and whose
ZenState agrees with the host fullscreen flag, calling toggle() twice
returns ZenState to its original value, and every CSS class the first
call added to the content, header, or graph-controls element is removed
by the second call; a class the first call added to the editing surface
is also removed provided the host's global readable-line-length setting
is off. -/
theorem toggle_round_trip (s : SysState) (leaf : LeafView)
    (hleaf : s.itemViewLeaf = some leaf)
    (hne : leaf.viewType ≠ "empty")
    (hce : leaf.hasContainerEl = true)
    (hsync : s.isInZenMode = s.fullscreenElement) :
    (fullscreenMode (fullscreenMode s).1).1.isInZenMode = s.isInZenMode ∧
    (∀ c, c ∈ contentClassesOf (fullscreenMode s).1 → c ∉ contentClassesOf s →
      c ∉ contentClassesOf (fullscreenMode (fullscreenMode s).1).1) ∧
    (∀ c, c ∈ headerClassesOf (fullscreenMode s).1 → c ∉ headerClassesOf s →
      c ∉ headerClassesOf (fullscreenMode (fullscreenMode s).1).1) ∧
    (∀ c, c ∈ graphControlsClassesOf (fullscreenMode s).1 → c ∉ graphControlsClassesOf s →
      c ∉ graphControlsClassesOf (fullscreenMode (fullscreenMode s).1).1) ∧
    (∀ c, c ∈ editorClassesOf (fullscreenMode s).1 → c ∉ editorClassesOf s →
      s.readableLineLength = false →
      c ∉ editorClassesOf (fullscreenMode (fullscreenMode s).1).1) := by
  by_cases hf : s.fullscreenElement = false
  · have e1 := fullscreenMode_enter s leaf hleaf hne hf hce
    have e2 := fullscreenMode_exit
        { s with rootVars := styleVarsOf s.settings
                 fullscreenElement := true
                 itemViewLeaf := some (addStyles s.settings leaf)
                 isInZenMode := true
                 fsChangeHandlerSet := true }
        (addStyles s.settings leaf) rfl
        (by rw [addStyles_viewType]; exact hne) rfl
        (by rw [addStyles_hasContainerEl]; exact hce)
    rw [hsync, hf]
    simp only [e1, e2]
    simp only [contentClassesOf, headerClassesOf, graphControlsClassesOf, editorClassesOf,
      hleaf]
    refine ⟨by trivial, ?_, ?_, ?_, ?_⟩
    · intro c hc1 hc0
      rcases mem_contentClasses_addStyles hc1 with h | h
      · exact absurd h hc0
      · exact not_mem_contentClasses_removeStyles h
    · intro c hc1 hc0
      rcases mem_headerClasses_addStyles hc1 with h | h
      · exact absurd h hc0
      · exact not_mem_headerClasses_removeStyles h
    · intro c hc1 hc0
      by_cases hg : leaf.viewType = "graph"
      · rcases mem_graphControls_addStyles hc1 with h | rfl
        · exact absurd h hc0
        · exact not_mem_graphControls_removeStyles
            (by rw [addStyles_viewType]; exact hg) (by decide)
      · rw [addStyles_graphControlsClasses,
          if_neg (by rintro ⟨h, -⟩; exact hg h)] at hc1
        exact absurd hc1 hc0
    · intro c hc1 hc0 hr
      by_cases hg : leaf.viewType = "graph"
      · rw [addStyles_editorClasses,
          if_neg (by rintro ⟨h, -⟩; exact h hg)] at hc1
        exact absurd hc1 hc0
      · rcases mem_editorClasses_addStyles hc1 with h | rfl
        · exact absurd h hc0
        · rw [hr]
          exact not_mem_editorClasses_removeStyles (by rw [addStyles_viewType]; exact hg)
  · have hf' : s.fullscreenElement = true := by simpa using hf
    have e1 := fullscreenMode_exit s leaf hleaf hne hf' hce
    have e2 := fullscreenMode_enter
        { s with rootVars := styleVarsOf s.settings
                 fullscreenElement := false
                 itemViewLeaf := some (removeStyles s.readableLineLength leaf)
                 isInZenMode := false
                 fsChangeHandlerSet := true }
        (removeStyles s.readableLineLength leaf) rfl
        (by rw [removeStyles_viewType]; exact hne) rfl
        (by rw [removeStyles_hasContainerEl]; exact hce)
    rw [hsync, hf']
    simp only [e1, e2]
    simp only [contentClassesOf, headerClassesOf, graphControlsClassesOf, editorClassesOf,
      hleaf]
    refine ⟨by trivial, ?_, ?_, ?_, ?_⟩
    · intro c hc1 hc0
      exact absurd (mem_contentClasses_removeStyles hc1) hc0
    · intro c hc1 hc0
      exact absurd (mem_headerClasses_removeStyles hc1) hc0
    · intro c hc1 hc0
      exact absurd (mem_graphControls_removeStyles hc1) hc0
    · intro c hc1 hc0 hr
      exact absurd (mem_editorClasses_removeStyles hc1) hc0

/-- Witness for the amended C2 at the baseline markdown state: the zen
flag round-trips back to false. -/
theorem toggle_round_trip_witness :
    (fullscreenMode (fullscreenMode baseState).1).1.isInZenMode = baseState.isInZenMode :=
  (toggle_round_trip baseState mdLeaf rfl (by decide) rfl rfl).1
